import Mathlib

/-!
Shallow embedding of the accounts service (`src/index.js`) of the
accounts-service repository, together with the identity/catalog mock
collaborators (the unnamed mock-server source file).

Request bodies arrive through `express.json()`, so every value a handler sees
is a parsed JSON value, with a missing field modelled as `Option.none`.
`JSON.parse` evaluates numeric literals to JavaScript doubles: in-range
literals give finite numbers, modelled here as exact integers `Int` (the
idealization under which the Ledger's balance arithmetic is stated), while
over-range literals such as `1e999` give `Infinity` or `-Infinity` — so
non-finite numbers do reach the handlers and get their own constructors, as
does `NaN` (no JSON literal produces it, but the source guards on
`Number.isNaN`, so it is part of the guarded value space). The JS-number
semantics of the onboarding credit step, where a non-finite amount can flow
into the balance, is modelled by `jsAdd` and `onboardCreditStep`.
-/

/-- A parsed JSON value as seen by the handlers. Finite numbers are
idealized as `Int`; `vInf` is `Infinity`/`-Infinity` (the parse of an
over-range literal such as `1e999`), `vNaN` is the number `NaN`. -/
inductive JsValue where
  | vNull : JsValue
  | vBool (b : Bool) : JsValue
  | vNum (n : Int) : JsValue
  | vStr (s : String) : JsValue
  | vInf (neg : Bool) : JsValue
  | vNaN : JsValue
  deriving DecidableEq, Repr

/-- JavaScript truthiness of a JSON value (`!x` is its negation):
`null`, `false`, `0`, `""` and `NaN` are falsy; the infinities are truthy. -/
def JsValue.truthy : JsValue → Bool
  | .vNull => false
  | .vBool b => b
  | .vNum n => decide (n ≠ 0)
  | .vStr s => decide (s ≠ "")
  | .vInf _ => true
  | .vNaN => false

/-- The check `typeof x === "number"`: true for every number value, the
non-finite `Infinity`, `-Infinity` and `NaN` included. The source's
`!Number.isNaN(x)` conjunct is the separate check `JsValue.isJsNaN`. -/
def JsValue.isNum : JsValue → Bool
  | .vNum _ => true
  | .vInf _ => true
  | .vNaN => true
  | _ => false

/-- The check `Number.isNaN(x)`: true exactly for the number `NaN`. -/
def JsValue.isJsNaN : JsValue → Bool
  | .vNaN => true
  | _ => false

/-- The numeric value of a JSON value in the `Int` idealization, `0` for
non-numbers (only ever read behind a number guard). Non-finite numbers fall
outside this idealization and project to `0`; their faithful value is
`JsValue.toNumber`. -/
def JsValue.numVal : JsValue → Int
  | .vNum n => n
  | _ => 0

/-- Truthiness of a possibly-missing field (`undefined` is falsy). -/
def optTruthy : Option JsValue → Bool
  | none => false
  | some v => v.truthy

/-- Truthiness of a possibly-missing string-valued field. -/
def strTruthy : Option String → Bool
  | none => false
  | some s => decide (s ≠ "")

/-- Character-list comparison behind `strHasStart`. -/
def charsHaveStart : List Char → List Char → Bool
  | _, [] => true
  | [], _ :: _ => false
  | c :: cs, d :: ds => c = d && charsHaveStart cs ds

/-- JavaScript `s.startsWith(t)`. -/
def strHasStart (s t : String) : Bool :=
  charsHaveStart s.data t.data

/-! ### Association lists modelling JavaScript `Map`

A JS `Map` keeps first-insertion order; `set` on an existing key replaces the
value in place, `set` on a fresh key appends. `get` on an absent key returns
`undefined`, modelled as `none`. -/

/-- Lookup `Map.get`: value stored at `k`, or `none`. -/
def alGet {κ α : Type} [DecidableEq κ] : List (κ × α) → κ → Option α
  | [], _ => none
  | (k', v) :: rest, k => if k' = k then some v else alGet rest k

/-- Update `Map.set`: replace in place if the key is present, else append. -/
def alSet {κ α : Type} [DecidableEq κ] : List (κ × α) → κ → α → List (κ × α)
  | [], k, v => [(k, v)]
  | (k', v') :: rest, k, v =>
      if k' = k then (k, v) :: rest else (k', v') :: alSet rest k v

theorem alGet_alSet {κ α : Type} [DecidableEq κ]
    (m : List (κ × α)) (k k' : κ) (v : α) :
    alGet (alSet m k v) k' = if k = k' then some v else alGet m k' := by
  induction m with
  | nil =>
      by_cases h : k = k' <;> simp [alSet, alGet, h]
  | cons p rest ih =>
      obtain ⟨k₀, v₀⟩ := p
      by_cases h0 : k₀ = k
      · subst h0
        by_cases h : k₀ = k' <;> simp [alSet, alGet, h]
      · by_cases h : k₀ = k'
        · subst h
          have : ¬ k = k₀ := fun hh => h0 hh.symm
          simp [alSet, alGet, h0, this]
        · simp [alSet, alGet, h0, h, ih]

/-! ### Decimal rendering of the account counter

The source allocates ids with the template literal `` `a${accountCounter++}` ``,
i.e. `"a"` followed by the decimal representation of the counter. -/

/-- One decimal digit character. -/
def digitChar : Nat → Char
  | 0 => '0' | 1 => '1' | 2 => '2' | 3 => '3' | 4 => '4'
  | 5 => '5' | 6 => '6' | 7 => '7' | 8 => '8' | 9 => '9'
  | _ => '*'

/-- Decimal digits of `n`, most significant first, prepended to `acc`.
Structural recursion on a fuel argument (any fuel above `n` suffices). -/
def natDigitsCore : Nat → Nat → List Char → List Char
  | 0, _, acc => acc
  | fuel + 1, n, acc =>
      if n < 10 then digitChar n :: acc
      else natDigitsCore fuel (n / 10) (digitChar (n % 10) :: acc)

/-- Decimal string of a natural number, as the template literal renders it. -/
def natRepr (n : Nat) : String :=
  ⟨natDigitsCore (n + 1) n []⟩

/-- Numeric value of a digit character (inverse of `digitChar`). -/
def charVal (c : Char) : Nat := c.toNat - 48

/-- Value of a digit list read most-significant-first. -/
def digitsVal (ds : List Char) : Nat :=
  ds.foldl (fun a c => a * 10 + charVal c) 0

theorem charVal_digitChar (d : Nat) (hd : d < 10) : charVal (digitChar d) = d := by
  interval_cases d <;> rfl

theorem natDigitsCore_spec (n : Nat) :
    ∀ fuel acc, n < fuel →
      natDigitsCore fuel n acc = natDigitsCore (n + 1) n [] ++ acc := by
  induction n using Nat.strong_induction_on with
  | _ n ih =>
    intro fuel acc hf
    match fuel with
    | 0 => omega
    | f + 1 =>
      by_cases h : n < 10
      · simp [natDigitsCore, h]
      · have hlt : n / 10 < n := Nat.div_lt_self (by omega) (by omega)
        simp only [natDigitsCore, h, if_false]
        rw [ih (n / 10) hlt f (digitChar (n % 10) :: acc) (by omega),
          ih (n / 10) hlt n [digitChar (n % 10)] (by omega)]
        simp

theorem digitsVal_foldl (ds : List Char) (a : Nat) :
    List.foldl (fun a c => a * 10 + charVal c) a ds =
      a * 10 ^ ds.length + digitsVal ds := by
  induction ds generalizing a with
  | nil => simp [digitsVal]
  | cons c rest ih =>
      simp only [List.foldl_cons, digitsVal, List.length_cons]
      rw [ih, ih (0 * 10 + charVal c)]
      ring

theorem digitsVal_natRepr (n : Nat) : digitsVal (natRepr n).data = n := by
  induction n using Nat.strong_induction_on with
  | _ n ih =>
    by_cases h : n < 10
    · simp [natRepr, natDigitsCore, h, digitsVal, charVal_digitChar n h]
    · have hlt : n / 10 < n := Nat.div_lt_self (by omega) (by omega)
      have hstep : (natRepr n).data =
          (natRepr (n / 10)).data ++ [digitChar (n % 10)] := by
        simp only [natRepr, natDigitsCore, h, if_false]
        exact natDigitsCore_spec (n / 10) n [digitChar (n % 10)] (by omega)
      rw [hstep]
      unfold digitsVal
      rw [List.foldl_append]
      simp only [List.foldl_cons, List.foldl_nil]
      have hv := ih (n / 10) hlt
      unfold digitsVal at hv
      rw [hv, charVal_digitChar (n % 10) (Nat.mod_lt n (by omega))]
      omega

theorem natRepr_injective : Function.Injective natRepr := by
  intro m n h
  have hm : digitsVal (natRepr m).data = digitsVal (natRepr n).data := by rw [h]
  rw [digitsVal_natRepr, digitsVal_natRepr] at hm
  exact hm

/-- The account id allocated at counter value `n`: `"a" ++ decimal n`. -/
def accId (n : Nat) : String :=
  "a" ++ natRepr n

theorem accId_injective : Function.Injective accId := by
  intro m n h
  apply natRepr_injective
  have hd : (accId m).data = (accId n).data := by rw [h]
  simp only [accId] at hd
  apply String.ext
  have h1 : ("a" ++ natRepr m).data = 'a' :: (natRepr m).data := rfl
  have h2 : ("a" ++ natRepr n).data = 'a' :: (natRepr n).data := rfl
  rw [h1, h2] at hd
  exact List.cons_injective hd

/-! ### The Account Ledger

State of the accounts service: the three module-level `Map`s plus the id
counter (`accountsById`, `accountsByUserId`, `balancesByAccountId`,
`accountCounter`).

An account's `userId` is whatever `user.id` evaluated to in the handler; when
the identity response carried no usable id this is JS `undefined`, modelled as
`none`. The `type` field is stored verbatim from the request body, so it is a
`JsValue`. `createdAt` is `new Date().toISOString()`; the clock is passed in
as an explicit argument. -/

/-- An account record as built by `createAccount`. -/
structure Account where
  id : String
  userId : Option String
  type : JsValue
  createdAt : String
  deriving DecidableEq, Repr

/-- The accounts service's in-memory state. -/
structure Ledger where
  accountsById : List (String × Account)
  accountsByUserId : List (Option String × List Account)
  balancesByAccountId : List (String × Int)
  accountCounter : Nat
  deriving DecidableEq, Repr

/-- The state at process start: empty maps, counter `1`. -/
def Ledger.init : Ledger :=
  { accountsById := []
    accountsByUserId := []
    balancesByAccountId := []
    accountCounter := 1 }

/-- The Ledger operation `createAccount({userId, type})`: allocate `` `a${accountCounter++}` ``,
insert the record into the primary map, append it to the per-user index, and
set the balance to `0`. Returns the account and the new state. -/
def createAccount (st : Ledger) (userId : Option String) (type : JsValue)
    (now : String) : Account × Ledger :=
  let id := accId st.accountCounter
  let account : Account := { id := id, userId := userId, type := type, createdAt := now }
  let existing := (alGet st.accountsByUserId userId).getD []
  ⟨account,
    { accountsById := alSet st.accountsById id account
      accountsByUserId := alSet st.accountsByUserId userId (existing ++ [account])
      balancesByAccountId := alSet st.balancesByAccountId id 0
      accountCounter := st.accountCounter + 1 }⟩

/-- The Ledger operation `applyCredit(accountId, amount)`: read the stored balance (`|| 0` when
absent), add `amount`, store and return the new balance. -/
def applyCredit (st : Ledger) (accountId : String) (amount : Int) : Int × Ledger :=
  let current := (alGet st.balancesByAccountId accountId).getD 0
  let next := current + amount
  ⟨next,
    { st with balancesByAccountId := alSet st.balancesByAccountId accountId next }⟩

/-! ### The Downstream Client (`fetchJson`) and the collaborator bodies

A downstream interaction either yields an HTTP response (status, status text,
and the parsed JSON body — an empty body text parses to the empty object,
i.e. a body record with every field `none`) or the `fetch` promise rejects
(network failure). Bodies are modelled per collaborator with exactly the
fields the accounts service reads. -/

/-- A user object as returned by the identity service. -/
structure UserObj where
  id : String
  name : String
  email : String
  deriving DecidableEq, Repr

/-- An assignment object as returned by the catalog service. -/
structure Assignment where
  id : String
  productId : String
  accountId : String
  deriving DecidableEq, Repr

/-- Parsed body of an identity-service response: optional `user` field,
optional top-level `id` (read when `user` is absent and the body itself is
used as the user), optional `error` field. -/
structure IdentityBody where
  user : Option UserObj
  topId : Option String
  error : Option String
  deriving DecidableEq, Repr

/-- Parsed body of a catalog-service response: optional `assignment` field
and optional `error` field. -/
structure CatalogBody where
  assignment : Option Assignment
  error : Option String
  deriving DecidableEq, Repr

/-- Outcome of one `fetch`: an HTTP response, or a rejected promise. -/
inductive FetchBehavior (β : Type) where
  | respond (status : Nat) (statusText : String) (body : β)
  | netFail (message : String)
  deriving DecidableEq, Repr

/-- The predicate `res.ok`: status in the inclusive range 200-299. -/
def resOk (status : Nat) : Bool :=
  decide (200 ≤ status) && decide (status ≤ 299)

/-- The error thrown by `fetchJson`: `message` from
`new Error(data.error || res.statusText)`, and `status` which is absent
(`undefined`) when the `fetch` itself rejected. -/
structure UpstreamErr where
  message : String
  status : Option Nat
  deriving DecidableEq, Repr

/-- The expression `data.error || res.statusText`: the body's `error` field when present and
truthy, else the status text. -/
def fallbackMsg : Option String → String → String
  | some s, stext => if s = "" then stext else s
  | none, stext => stext

/-- The expression `err.status || 500` as used by the route catch handlers: `500` when the
status is absent (network failure) or falsy. -/
def errStatus (e : UpstreamErr) : Nat :=
  match e.status with
  | some s => if s = 0 then 500 else s
  | none => 500

/-- The client helper `fetchJson`: parse the body, return it on `res.ok`, otherwise throw an
error carrying `data.error || res.statusText` and the response status; a
rejected `fetch` propagates as an error with no status. `ef` reads the
body's `error` field. -/
def fetchJson {β : Type} (ef : β → Option String) :
    FetchBehavior β → Except UpstreamErr β
  | .respond status statusText body =>
      if resOk status then .ok body
      else .error ⟨fallbackMsg (ef body) statusText, some status⟩
  | .netFail message => .error ⟨message, none⟩

/-- The expression `userResponse.user || userResponse`: the user value the orchestrator works
with is either the body's `user` field or the whole body. -/
inductive EffUser where
  | fromField (u : UserObj)
  | fromBody (b : IdentityBody)
  deriving DecidableEq, Repr

/-- Field `user.id` of the effective user (`none` models JS `undefined`). -/
def EffUser.idField : EffUser → Option String
  | .fromField u => some u.id
  | .fromBody b => b.topId

/-- Build the effective user from an identity body (objects are truthy, so
`user || body` picks `user` exactly when the field is present). -/
def effUser (b : IdentityBody) : EffUser :=
  match b.user with
  | some u => .fromField u
  | none => .fromBody b

/-- The expression `assignmentResponse.assignment || assignmentResponse`. -/
inductive EffAssignment where
  | fromField (a : Assignment)
  | fromBody (b : CatalogBody)
  deriving DecidableEq, Repr

/-- Field `assignment.productId` of the effective assignment (`none` models JS
`undefined`: the catalog body has no top-level `productId` field). -/
def EffAssignment.productIdField : EffAssignment → Option String
  | .fromField a => some a.productId
  | .fromBody _ => none

/-- Build the effective assignment from a catalog body. -/
def effAssignment (b : CatalogBody) : EffAssignment :=
  match b.assignment with
  | some a => .fromField a
  | none => .fromBody b

/-! ### The HTTP handlers of the accounts service -/

/-- Equality of `Except` values is decidable when it is on both sides. -/
instance {ε α : Type} [DecidableEq ε] [DecidableEq α] : DecidableEq (Except ε α) := by
  intro x y
  cases x with
  | error e =>
      cases y with
      | error e' =>
          exact decidable_of_iff (e = e')
            ⟨fun h => by rw [h], fun h => by injection h⟩
      | ok _ => exact isFalse (fun h => Except.noConfusion h)
  | ok a =>
      cases y with
      | error _ => exact isFalse (fun h => Except.noConfusion h)
      | ok b =>
          exact decidable_of_iff (a = b)
            ⟨fun h => by rw [h], fun h => by injection h⟩

/-- An HTTP reply: status plus either a success body or `{error: msg}`. -/
structure HttpReply (α : Type) where
  status : Nat
  body : Except String α
  deriving DecidableEq, Repr

/-- Handler for `POST /accounts`: validate `userId`, call `ensureUserExists` against the
identity service, then `createAccount`. `identityGetUser` is the behavior of
`GET {IDENTITY_BASE_URL}/users/:userId`. Returns the reply and the new
state. -/
def createAccountHandler (st : Ledger) (now : String)
    (identityGetUser : String → FetchBehavior IdentityBody)
    (userId : Option String) (type : Option JsValue) :
    HttpReply Account × Ledger :=
  let ty := type.getD (.vStr "standard")
  if !strTruthy userId then (⟨400, .error "userId is required"⟩, st)
  else
    match fetchJson IdentityBody.error (identityGetUser (userId.getD "")) with
    | .error e => (⟨errStatus e, .error e.message⟩, st)
    | .ok _ =>
        let r := createAccount st userId ty now
        (⟨201, .ok r.1⟩, r.2)

/-- Handler for `GET /accounts/:id`: look up the account; 404 when absent, else 200 with
the account and its balance (`|| 0`). -/
def getAccountHandler (st : Ledger) (id : String) : HttpReply (Account × Int) :=
  match alGet st.accountsById id with
  | none => ⟨404, .error "account not found"⟩
  | some account =>
      ⟨200, .ok (account, (alGet st.balancesByAccountId account.id).getD 0)⟩

/-- Handler for `GET /accounts?userId=`: 400 when the query parameter is missing or
empty, else 200 with the per-user index entry (`|| []`). Query parameters
are always strings, so the lookup key is `some userId`. -/
def listAccountsHandler (st : Ledger) (userId : Option String) :
    HttpReply (List Account) :=
  if !strTruthy userId then ⟨400, .error "userId query is required"⟩
  else ⟨200, .ok ((alGet st.accountsByUserId (some (userId.getD ""))).getD [])⟩

/-- Handler for `POST /accounts/:id/credit`: 404 when the account is
unknown, 400 when `amount` fails
`typeof amount === "number" && !Number.isNaN(amount)` (a missing `amount`
is `undefined`, hence not a number), else apply the credit and return
`{accountId, balance}`. The credited amount is taken in the `Int`
idealization via `numVal`. -/
def creditAccountHandler (st : Ledger) (id : String) (amount : Option JsValue) :
    HttpReply (String × Int) × Ledger :=
  match alGet st.accountsById id with
  | none => (⟨404, .error "account not found"⟩, st)
  | some account =>
      match amount with
      | some v =>
          if v.isNum && !v.isJsNaN then
            let r := applyCredit st account.id v.numVal
            (⟨200, .ok (account.id, r.1)⟩, r.2)
          else (⟨400, .error "amount must be a number"⟩, st)
      | none => (⟨400, .error "amount must be a number"⟩, st)

/-! ### The Onboarding Orchestrator (`POST /accounts/onboard`) -/

/-- Body of the onboarding request (parsed JSON; `none` = field absent). -/
structure OnboardRequest where
  name : Option String
  email : Option String
  productId : Option String
  initialCredit : Option JsValue
  deriving DecidableEq, Repr

/-- The 201 body `{user, account, assignment, balance}`. -/
structure OnboardSuccess where
  user : EffUser
  account : Account
  assignment : EffAssignment
  balance : Int
  deriving DecidableEq, Repr

/-- Outcome of one onboarding call: the reply, the final Ledger state, and
which downstream calls were issued. -/
structure OnboardOut where
  reply : HttpReply OnboardSuccess
  ledger : Ledger
  identityCalled : Bool
  catalogCalled : Bool
  deriving DecidableEq, Repr

/-- Handler for `POST /accounts/onboard`: validate, `createUser` downstream,
`createAccount`, optionally `applyCredit`, `assignProduct` downstream, then
read the balance back and reply 201. `identityCreateUser name email` is the
behavior of `POST {IDENTITY_BASE_URL}/users`; `catalogAssign productId
accountId` of `POST {CATALOG_BASE_URL}/products/:productId/assign`. -/
def onboard (st : Ledger) (now : String)
    (identityCreateUser : String → String → FetchBehavior IdentityBody)
    (catalogAssign : String → String → FetchBehavior CatalogBody)
    (req : OnboardRequest) : OnboardOut :=
  if !strTruthy req.name || !strTruthy req.email || !strTruthy req.productId then
    { reply := ⟨400, .error "name, email, and productId are required"⟩
      ledger := st, identityCalled := false, catalogCalled := false }
  else
    let initialCredit := req.initialCredit.getD (.vNum 0)
    match fetchJson IdentityBody.error
        (identityCreateUser (req.name.getD "") (req.email.getD "")) with
    | .error e =>
        { reply := ⟨errStatus e, .error e.message⟩
          ledger := st, identityCalled := true, catalogCalled := false }
    | .ok ib =>
        let user := effUser ib
        let r := createAccount st user.idField (.vStr "standard") now
        let account := r.1
        let st2 :=
          if initialCredit.isNum && !initialCredit.isJsNaN then
            (applyCredit r.2 account.id initialCredit.numVal).2
          else r.2
        match fetchJson CatalogBody.error
            (catalogAssign (req.productId.getD "") account.id) with
        | .error e =>
            { reply := ⟨errStatus e, .error e.message⟩
              ledger := st2, identityCalled := true, catalogCalled := true }
        | .ok cb =>
            let balance := (alGet st2.balancesByAccountId account.id).getD 0
            { reply := ⟨201, .ok ⟨user, account, effAssignment cb, balance⟩⟩
              ledger := st2, identityCalled := true, catalogCalled := true }

/-! ### JS-number-faithful semantics of the onboarding credit step

The Ledger embedding above idealizes JavaScript numbers as exact integers;
that is adequate while every credited amount is finite. The credit guard at
step 4 of onboarding is only
`typeof initialCredit === "number" && !Number.isNaN(initialCredit)`, and
`JSON.parse` delivers `Infinity` for an over-range literal such as `1e999`,
so a non-finite number can pass the guard and reach `applyCredit`. The
definitions below model exactly that step of the onboard handler — the
fresh account starts at balance 0 — over full JS number semantics. -/

/-- A JavaScript number: finite (idealized as `Int`), `Infinity`,
`-Infinity`, or `NaN`. -/
inductive JsNumber where
  | finite (n : Int)
  | posInf
  | negInf
  | nan
  deriving DecidableEq, Repr

/-- The JS number denoted by a JSON value (only ever read behind a
`typeof x === "number"` guard; non-numbers map to `0` arbitrarily). -/
def JsValue.toNumber : JsValue → JsNumber
  | .vNum n => .finite n
  | .vInf neg => if neg then .negInf else .posInf
  | .vNaN => .nan
  | _ => .finite 0

/-- JavaScript `+` on numbers: `NaN` is absorbing, opposite infinities give
`NaN`, an infinity absorbs finite values, finite addition is exact. -/
def jsAdd : JsNumber → JsNumber → JsNumber
  | .nan, _ => .nan
  | _, .nan => .nan
  | .posInf, .negInf => .nan
  | .negInf, .posInf => .nan
  | .posInf, _ => .posInf
  | _, .posInf => .posInf
  | .negInf, _ => .negInf
  | _, .negInf => .negInf
  | .finite a, .finite b => .finite (a + b)

/-- Lines 116-118 of the onboard handler over JS numbers: after
`createAccount` the fresh account's balance is 0; if
`typeof initialCredit === "number" && !Number.isNaN(initialCredit)` holds
(with the destructuring default `0` for an absent field) the credit is
applied with JS addition, otherwise the step is skipped. Returns whether
`applyCredit` ran, and the account's resulting balance. -/
def onboardCreditStep (initialCredit : Option JsValue) : Bool × JsNumber :=
  let v := initialCredit.getD (.vNum 0)
  if v.isNum && !v.isJsNaN then (true, jsAdd (.finite 0) v.toNumber)
  else (false, .finite 0)

theorem onboardCreditStep_finite (c : Int) :
    onboardCreditStep (some (.vNum c)) = (true, .finite c) := by
  simp [onboardCreditStep, JsValue.isNum, JsValue.isJsNaN, JsValue.toNumber, jsAdd]

/-! ### The identity/catalog mock collaborators (mock-server source file) -/

/-- Mock identity `GET /users/:userId`: 404 for ids with the `unknown`
marker at the start, the stored user when present, else a fabricated mock
user with that id. -/
def mockGetUser (usersById : List (String × UserObj)) (userId : String) :
    FetchBehavior IdentityBody :=
  if strHasStart userId "unknown" then
    .respond 404 "Not Found" ⟨none, none, some "user not found"⟩
  else
    match alGet usersById userId with
    | some u => .respond 200 "OK" ⟨some u, none, none⟩
    | none =>
        .respond 200 "OK" ⟨some ⟨userId, "Mock User", "mock@example.com"⟩, none, none⟩

/-- Mock identity `POST /users`: 400 when `name` or `email` is falsy, else
201 with a fresh `` `u${userCounter++}` `` user echoing name and email. -/
def mockCreateUser (userCounter : Nat) (name email : String) :
    FetchBehavior IdentityBody :=
  if name = "" || email = "" then
    .respond 400 "Bad Request" ⟨none, none, some "name and email are required"⟩
  else
    .respond 201 "Created" ⟨some ⟨"u" ++ natRepr userCounter, name, email⟩, none, none⟩

/-- Mock catalog `POST /products/:productId/assign`: 404 for product ids with
the `unknown` marker at the start, 400 when `accountId` is falsy, else 200
with a fresh `` `as${assignmentCounter++}` `` assignment echoing both ids. -/
def mockAssignProduct (assignmentCounter : Nat) (productId accountId : String) :
    FetchBehavior CatalogBody :=
  if strHasStart productId "unknown" then
    .respond 404 "Not Found" ⟨none, some "product not found"⟩
  else if accountId = "" then
    .respond 400 "Bad Request" ⟨none, some "accountId is required"⟩
  else
    .respond 200 "OK" ⟨some ⟨"as" ++ natRepr assignmentCounter, productId, accountId⟩, none⟩

/-! ### Sequences of Ledger operations

The Ledger is only ever mutated through two paths: `createAccount` (reached
from `POST /accounts` and from step 3 of onboarding) and a credit on an
account that is known to exist (`POST /accounts/:id/credit` after its 404
check, and step 4 of onboarding on the just-created account). `LOp` is one
such mutation; `stepOp` is its effect on the state, exactly as the source
performs it (a credit addressed to an unknown id leaves the state
unchanged, matching the handler's early 404 return). Credit amounts are
the finite values of the `Int` idealization. -/

/-- One state-mutating Ledger operation. -/
inductive LOp where
  | create (userId : Option String) (ty : JsValue) (now : String)
  | credit (id : String) (amount : Int)
  deriving DecidableEq, Repr

/-- Effect of one operation on the Ledger state. -/
def stepOp (st : Ledger) : LOp → Ledger
  | .create u ty now => (createAccount st u ty now).2
  | .credit id a =>
      match alGet st.accountsById id with
      | some account => (applyCredit st account.id a).2
      | none => st

/-- Run a sequence of operations from a state. -/
def runOps (st : Ledger) : List LOp → Ledger
  | [] => st
  | op :: rest => runOps (stepOp st op) rest

/-- Whether a credit addressed to path id `i` lands on balance key `id`:
the account must exist and its stored `id` field must be `id`. -/
def creditApplies (st : Ledger) (i id : String) : Bool :=
  match alGet st.accountsById i with
  | some account => decide (account.id = id)
  | none => false

/-- Sum of all credit deltas actually applied to `id` along a run. -/
def appliedDeltas (st : Ledger) (ops : List LOp) (id : String) : Int :=
  match ops with
  | [] => 0
  | .credit i a :: rest =>
      (if creditApplies st i id then a else 0) +
        appliedDeltas (stepOp st (.credit i a)) rest id
  | .create u ty now :: rest => appliedDeltas (stepOp st (.create u ty now)) rest id

/-- Accounts created for user key `u` along a run, in creation order. -/
def createdFor (st : Ledger) (ops : List LOp) (u : Option String) : List Account :=
  match ops with
  | [] => []
  | .create uid ty now :: rest =>
      (if uid = u then [(createAccount st uid ty now).1] else []) ++
        createdFor (stepOp st (.create uid ty now)) rest u
  | .credit i a :: rest => createdFor (stepOp st (.credit i a)) rest u

/-- Well-formedness of a Ledger state, maintained by every operation: each
stored account's `id` field is its key, the balance map and the account map
have the same domain, and every id the counter may still allocate is
absent. -/
structure LedgerWF (st : Ledger) : Prop where
  keyId : ∀ id acc, alGet st.accountsById id = some acc → acc.id = id
  balIffAcc : ∀ id,
    (alGet st.balancesByAccountId id).isSome ↔ (alGet st.accountsById id).isSome
  fresh : ∀ k, st.accountCounter ≤ k → alGet st.accountsById (accId k) = none

theorem ledgerWF_init : LedgerWF Ledger.init := by
  constructor
  · intro id acc h
    simp [Ledger.init, alGet] at h
  · intro id
    simp [Ledger.init, alGet]
  · intro k _
    simp [Ledger.init, alGet]

theorem stepOp_wf (st : Ledger) (op : LOp) (hwf : LedgerWF st) :
    LedgerWF (stepOp st op) := by
  cases op with
  | create u ty now =>
      constructor
      · intro id acc h
        simp only [stepOp, createAccount, alGet_alSet] at h
        by_cases hc : accId st.accountCounter = id
        · rw [if_pos hc] at h
          cases h
          exact hc
        · rw [if_neg hc] at h
          exact hwf.keyId id acc h
      · intro id
        simp only [stepOp, createAccount, alGet_alSet]
        by_cases hc : accId st.accountCounter = id
        · simp [hc]
        · simp only [if_neg hc]
          exact hwf.balIffAcc id
      · intro k hk
        simp only [stepOp, createAccount, alGet_alSet]
        have hne : accId st.accountCounter ≠ accId k := by
          intro h
          have := accId_injective h
          simp only [stepOp, createAccount] at hk
          omega
        rw [if_neg hne]
        exact hwf.fresh k (by simp only [stepOp, createAccount] at hk; omega)
  | credit i a =>
      cases hacc : alGet st.accountsById i with
      | none => simpa [stepOp, hacc] using hwf
      | some account =>
          constructor
          · intro id acc h
            simp only [stepOp, hacc, applyCredit] at h
            exact hwf.keyId id acc h
          · intro id
            simp only [stepOp, hacc, applyCredit, alGet_alSet]
            by_cases hc : account.id = id
            · subst hc
              have : alGet st.accountsById account.id = some account := by
                rw [hwf.keyId i account hacc]
                exact hacc
              simp [this]
            · simp only [if_neg hc]
              exact hwf.balIffAcc id
          · intro k hk
            simp only [stepOp, hacc, applyCredit]
            exact hwf.fresh k (by simpa [stepOp, hacc, applyCredit] using hk)

theorem runOps_wf (ops : List LOp) :
    ∀ st : Ledger, LedgerWF st → LedgerWF (runOps st ops) := by
  induction ops with
  | nil => intro st h; simpa [runOps] using h
  | cons op rest ih =>
      intro st h
      exact ih (stepOp st op) (stepOp_wf st op h)

theorem balance_createAccount (st : Ledger) (u : Option String) (ty : JsValue)
    (now : String) (id : String) (hwf : LedgerWF st) :
    (alGet (createAccount st u ty now).2.balancesByAccountId id).getD 0 =
      (alGet st.balancesByAccountId id).getD 0 := by
  simp only [createAccount, alGet_alSet]
  by_cases hc : accId st.accountCounter = id
  · subst hc
    have hacc : alGet st.accountsById (accId st.accountCounter) = none :=
      hwf.fresh st.accountCounter (le_refl _)
    have hbal : alGet st.balancesByAccountId (accId st.accountCounter) = none := by
      have := hwf.balIffAcc (accId st.accountCounter)
      cases hb : alGet st.balancesByAccountId (accId st.accountCounter) with
      | none => rfl
      | some v =>
          rw [hb, hacc] at this
          simp at this
    simp [hbal]
  · simp [if_neg hc]

theorem balance_runOps (ops : List LOp) :
    ∀ st : Ledger, LedgerWF st → ∀ id : String,
      (alGet (runOps st ops).balancesByAccountId id).getD 0 =
        (alGet st.balancesByAccountId id).getD 0 + appliedDeltas st ops id := by
  induction ops with
  | nil => intro st _ id; simp [runOps, appliedDeltas]
  | cons op rest ih =>
      intro st hwf id
      have hwf' := stepOp_wf st op hwf
      cases op with
      | create u ty now =>
          simp only [runOps, appliedDeltas]
          rw [ih (stepOp st (.create u ty now)) hwf' id]
          have : (alGet (stepOp st (.create u ty now)).balancesByAccountId id).getD 0 =
              (alGet st.balancesByAccountId id).getD 0 := by
            simpa [stepOp] using balance_createAccount st u ty now id hwf
          rw [this]
      | credit i a =>
          simp only [runOps, appliedDeltas]
          rw [ih (stepOp st (.credit i a)) hwf' id]
          have hstep : (alGet (stepOp st (.credit i a)).balancesByAccountId id).getD 0 =
              (alGet st.balancesByAccountId id).getD 0 +
                (if creditApplies st i id then a else 0) := by
            cases hacc : alGet st.accountsById i with
            | none => simp [stepOp, hacc, creditApplies]
            | some account =>
                simp only [stepOp, hacc, applyCredit, alGet_alSet, creditApplies]
                by_cases hc : account.id = id
                · subst hc
                  simp
                · simp [if_neg hc, hc]
          rw [hstep]
          ring

theorem listed_runOps (ops : List LOp) :
    ∀ st : Ledger, ∀ u : Option String,
      (alGet (runOps st ops).accountsByUserId u).getD [] =
        (alGet st.accountsByUserId u).getD [] ++ createdFor st ops u := by
  induction ops with
  | nil => intro st u; simp [runOps, createdFor]
  | cons op rest ih =>
      intro st u
      cases op with
      | create uid ty now =>
          simp only [runOps, createdFor]
          rw [ih (stepOp st (.create uid ty now)) u]
          have : (alGet (stepOp st (.create uid ty now)).accountsByUserId u).getD [] =
              (alGet st.accountsByUserId u).getD [] ++
                (if uid = u then [(createAccount st uid ty now).1] else []) := by
            simp only [stepOp, createAccount, alGet_alSet]
            by_cases hc : uid = u
            · simp [hc]
            · simp [if_neg hc, hc]
          rw [this, List.append_assoc]
      | credit i a =>
          simp only [runOps, createdFor]
          rw [ih (stepOp st (.credit i a)) u]
          have : (alGet (stepOp st (.credit i a)).accountsByUserId u).getD [] =
              (alGet st.accountsByUserId u).getD [] := by
            cases hacc : alGet st.accountsById i with
            | none => simp [stepOp, hacc]
            | some account => simp [stepOp, hacc, applyCredit]
          rw [this]

/-! ### Small helper lemmas -/

theorem strTruthy_getD (o : Option String) (h : strTruthy o = true) :
    o.getD "" ≠ "" := by
  cases o with
  | none => simp [strTruthy] at h
  | some s => simpa [strTruthy] using h

theorem accId_ne_empty (n : Nat) : accId n ≠ "" := by
  intro h
  have hd : (accId n).data = ("" : String).data := by rw [h]
  have h1 : (accId n).data = 'a' :: (natRepr n).data := rfl
  rw [h1] at hd
  simp at hd

theorem numVal_of_guard_false (v : JsValue)
    (h : (v.isNum && !v.isJsNaN) = false) :
    (if v.isNum = true then v.numVal else 0) = 0 := by
  cases v <;> simp_all [JsValue.isNum, JsValue.isJsNaN, JsValue.numVal]

/-! ### The claims -/

/-- Claim C2: after every sequence of Ledger operations from the
process-start state, for every account id the balance map has an entry iff
the account map has one, and the stored balance (0 when absent) equals the
arithmetic sum of all credit deltas ever applied to that id — signed
integers, with no lower bound. -/
theorem ledger_balance_invariant (ops : List LOp) (id : String) :
    ((alGet (runOps Ledger.init ops).balancesByAccountId id).isSome ↔
      (alGet (runOps Ledger.init ops).accountsById id).isSome) ∧
    (alGet (runOps Ledger.init ops).balancesByAccountId id).getD 0 =
      appliedDeltas Ledger.init ops id := by
  constructor
  · exact (runOps_wf ops Ledger.init ledgerWF_init).balIffAcc id
  · have h := balance_runOps ops Ledger.init ledgerWF_init id
    simpa [Ledger.init, alGet] using h

/-- Claim C3: a downstream response with a non-2xx status is translated into
a failure whose surfaced status (`err.status || 500`) is the original status
unchanged and whose message is the parsed body's `error` field, falling back
to the transport's status text; a rejected `fetch` (downstream unreachable)
surfaces as the fixed internal-error status 500. -/
theorem fetchJson_error_translation (β : Type) (ef : β → Option String)
    (s : Nat) (stext : String) (b : β) (m : String)
    (hs : resOk s = false) (hnz : s ≠ 0) :
    (∃ e : UpstreamErr, fetchJson ef (.respond s stext b) = .error e ∧
      errStatus e = s ∧ e.message = fallbackMsg (ef b) stext) ∧
    (∃ e : UpstreamErr, fetchJson ef (.netFail m) = .error e ∧
      errStatus e = 500 ∧ e.message = m) := by
  constructor
  · refine ⟨⟨fallbackMsg (ef b) stext, some s⟩, ?_, ?_, rfl⟩
    · simp [fetchJson, hs]
    · simp [errStatus, hnz]
  · exact ⟨⟨m, none⟩, rfl, rfl, rfl⟩

/-- Witness for C3: the catalog's 404 `{error: "product not found"}` is
surfaced with status 404 and that message; a rejected `fetch` surfaces as
500. -/
theorem fetchJson_error_translation_witness :
    (∃ e : UpstreamErr,
      fetchJson CatalogBody.error
          (.respond 404 "Not Found" ⟨none, some "product not found"⟩) = .error e ∧
      errStatus e = 404 ∧
      e.message = fallbackMsg (CatalogBody.error ⟨none, some "product not found"⟩)
        "Not Found") ∧
    (∃ e : UpstreamErr, fetchJson CatalogBody.error (.netFail "fetch failed") =
      .error e ∧ errStatus e = 500 ∧ e.message = "fetch failed") :=
  fetchJson_error_translation CatalogBody CatalogBody.error 404 "Not Found"
    ⟨none, some "product not found"⟩ "fetch failed" (by decide) (by decide)

/-- Claim C5: an onboarding request lacking `name`, `email` or `productId`
is rejected with 400; no downstream call is issued and the Ledger state is
returned untouched. -/
theorem onboard_missing_field_400 (st : Ledger) (now : String)
    (icu : String → String → FetchBehavior IdentityBody)
    (ca : String → String → FetchBehavior CatalogBody)
    (req : OnboardRequest)
    (h : req.name = none ∨ req.email = none ∨ req.productId = none) :
    onboard st now icu ca req =
      { reply := ⟨400, .error "name, email, and productId are required"⟩
        ledger := st, identityCalled := false, catalogCalled := false } := by
  have hcond : (!strTruthy req.name || !strTruthy req.email ||
      !strTruthy req.productId) = true := by
    rcases h with h | h | h <;> simp [h, strTruthy]
  simp [onboard, hcond]

/-- Witness for C5: onboarding with a missing `email` is a 400 with no
downstream call and no state change. -/
theorem onboard_missing_field_400_witness :
    onboard Ledger.init "t" (mockCreateUser 1) (mockAssignProduct 1)
        ⟨some "Ada", none, some "p1", none⟩ =
      { reply := ⟨400, .error "name, email, and productId are required"⟩
        ledger := Ledger.init, identityCalled := false, catalogCalled := false } :=
  onboard_missing_field_400 Ledger.init "t" (mockCreateUser 1) (mockAssignProduct 1)
    ⟨some "Ada", none, some "p1", none⟩ (Or.inr (Or.inl rfl))

/-- Claim C6: when the `createUser` downstream call fails (the identity
`fetchJson` throws), onboarding fails at once with that error's message and
surfaced status (`err.status || 500`), the Ledger state is returned exactly
as it was — no account, no balance entry — and the catalog is never
called. -/
theorem onboard_createUser_failure (st : Ledger) (now : String)
    (icu : String → String → FetchBehavior IdentityBody)
    (ca : String → String → FetchBehavior CatalogBody)
    (req : OnboardRequest) (e : UpstreamErr)
    (hn : strTruthy req.name = true) (hm : strTruthy req.email = true)
    (hp : strTruthy req.productId = true)
    (hfail : fetchJson IdentityBody.error
      (icu (req.name.getD "") (req.email.getD "")) = .error e) :
    onboard st now icu ca req =
      { reply := ⟨errStatus e, .error e.message⟩
        ledger := st, identityCalled := true, catalogCalled := false } := by
  simp [onboard, hn, hm, hp, hfail]

/-- Witness for C6: an identity 503 `{error: "identity down"}` surfaces as a
503 with that message, leaving the start state untouched. -/
theorem onboard_createUser_failure_witness :
    onboard Ledger.init "t"
        (fun _ _ => .respond 503 "Service Unavailable" ⟨none, none, some "identity down"⟩)
        (mockAssignProduct 1) ⟨some "Ada", some "ada@example.com", some "p1", none⟩ =
      { reply := ⟨503, .error "identity down"⟩
        ledger := Ledger.init, identityCalled := true, catalogCalled := false } := by
  have h := onboard_createUser_failure Ledger.init "t"
    (fun _ _ => .respond 503 "Service Unavailable" ⟨none, none, some "identity down"⟩)
    (mockAssignProduct 1) ⟨some "Ada", some "ada@example.com", some "p1", none⟩
    ⟨"identity down", some 503⟩ (by decide) (by decide) (by decide) (by decide)
  rw [h]
  rfl

/-- Claim C8: crediting an account id absent from the Ledger yields 404 and
returns the state unchanged — no account and no balance entry is created as
a side effect. -/
theorem credit_unknown_notFound (st : Ledger) (id : String)
    (amount : Option JsValue) (h : alGet st.accountsById id = none) :
    creditAccountHandler st id amount = (⟨404, .error "account not found"⟩, st) := by
  simp [creditAccountHandler, h]

/-- Witness for C8: crediting `a1` on the empty start state is a 404 with
the state unchanged. -/
theorem credit_unknown_notFound_witness :
    creditAccountHandler Ledger.init "a1" (some (.vNum 5)) =
      (⟨404, .error "account not found"⟩, Ledger.init) :=
  credit_unknown_notFound Ledger.init "a1" (some (.vNum 5)) rfl

/-- Claim C9: listing accounts for a user id returns exactly the accounts
created for that id along the run, in creation order, with status 200 — in
particular an empty list, not an error, when none were created. -/
theorem listAccounts_creation_order (ops : List LOp) (s : String) (hs : s ≠ "") :
    listAccountsHandler (runOps Ledger.init ops) (some s) =
      ⟨200, .ok (createdFor Ledger.init ops (some s))⟩ := by
  have hl := listed_runOps ops Ledger.init (some s)
  have h0 : (alGet Ledger.init.accountsByUserId (some s)).getD ([] : List Account) = [] := rfl
  rw [h0, List.nil_append] at hl
  simp [listAccountsHandler, strTruthy, hs, hl]

/-- Witness for C9: after creating `a1` for `u1`, `a2` for `u2`, `a3` for
`u1` and crediting `a1`, listing `u1` returns `[a1, a3]` in creation order,
and listing the account-less `u9` returns `[]` with status 200. -/
theorem listAccounts_creation_order_witness :
    listAccountsHandler
        (runOps Ledger.init
          [.create (some "u1") (.vStr "standard") "t1",
           .create (some "u2") (.vStr "standard") "t2",
           .create (some "u1") (.vStr "gold") "t3",
           .credit "a1" 5]) (some "u1") =
      ⟨200, .ok [⟨"a1", some "u1", .vStr "standard", "t1"⟩,
                 ⟨"a3", some "u1", .vStr "gold", "t3"⟩]⟩ ∧
    listAccountsHandler
        (runOps Ledger.init
          [.create (some "u1") (.vStr "standard") "t1",
           .create (some "u2") (.vStr "standard") "t2",
           .create (some "u1") (.vStr "gold") "t3",
           .credit "a1" 5]) (some "u9") = ⟨200, .ok []⟩ := by
  constructor
  · have h := listAccounts_creation_order
      [.create (some "u1") (.vStr "standard") "t1",
       .create (some "u2") (.vStr "standard") "t2",
       .create (some "u1") (.vStr "gold") "t3",
       .credit "a1" 5] "u1" (by decide)
    rw [h]
    rfl
  · have h := listAccounts_creation_order
      [.create (some "u1") (.vStr "standard") "t1",
       .create (some "u2") (.vStr "standard") "t2",
       .create (some "u1") (.vStr "gold") "t3",
       .credit "a1" 5] "u9" (by decide)
    rw [h]
    rfl

/-- Claim C10: `POST /accounts` with a valid `userId` and a 2xx identity
lookup creates the account with type `"standard"` when the body has no
`type` field, and with exactly the supplied value when it has one. -/
theorem post_accounts_type_default (st : Ledger) (now uid : String)
    (ig : String → FetchBehavior IdentityBody) (s : Nat) (stext : String)
    (b : IdentityBody) (v : JsValue)
    (huid : uid ≠ "") (hresp : ig uid = .respond s stext b)
    (hok : resOk s = true) :
    (createAccountHandler st now ig (some uid) none =
        (⟨201, .ok (createAccount st (some uid) (.vStr "standard") now).1⟩,
          (createAccount st (some uid) (.vStr "standard") now).2) ∧
      (createAccount st (some uid) (.vStr "standard") now).1.type =
        .vStr "standard") ∧
    (createAccountHandler st now ig (some uid) (some v) =
        (⟨201, .ok (createAccount st (some uid) v now).1⟩,
          (createAccount st (some uid) v now).2) ∧
      (createAccount st (some uid) v now).1.type = v) := by
  refine ⟨⟨?_, rfl⟩, ⟨?_, rfl⟩⟩ <;>
    simp [createAccountHandler, strTruthy, huid, hresp, fetchJson, hok]

/-- Witness for C10: against the mock identity, creating an account for `u7`
with no `type` stores type `"standard"`; with `type: "gold"` it stores
exactly `"gold"`. -/
theorem post_accounts_type_default_witness :
    (createAccountHandler Ledger.init "t" (mockGetUser []) (some "u7") none).1 =
      ⟨201, .ok ⟨"a1", some "u7", .vStr "standard", "t"⟩⟩ ∧
    (createAccountHandler Ledger.init "t" (mockGetUser [])
        (some "u7") (some (.vStr "gold"))).1 =
      ⟨201, .ok ⟨"a1", some "u7", .vStr "gold", "t"⟩⟩ := by
  have h := post_accounts_type_default Ledger.init "t" "u7" (mockGetUser []) 200 "OK"
    ⟨some ⟨"u7", "Mock User", "mock@example.com"⟩, none, none⟩ (.vStr "gold")
    (by decide) (by decide) (by decide)
  constructor
  · rw [h.1.1]
    rfl
  · rw [h.2.1]
    rfl

/-- Claim C1: when `createUser` succeeds and `assignProduct` comes back
non-2xx, onboarding surfaces the catalog's failure status and message, yet
the account created in step 3 stays retrievable from the Ledger with its
credited balance — the orchestrator rolls nothing back. -/
theorem onboard_assign_failure_partial_commit (st : Ledger) (now : String)
    (icu : String → String → FetchBehavior IdentityBody)
    (ca : String → String → FetchBehavior CatalogBody)
    (req : OnboardRequest) (ib : IdentityBody) (sc : Nat) (stc : String)
    (cb : CatalogBody)
    (hn : strTruthy req.name = true) (hm : strTruthy req.email = true)
    (hp : strTruthy req.productId = true)
    (hid : fetchJson IdentityBody.error
      (icu (req.name.getD "") (req.email.getD "")) = .ok ib)
    (hcat : ca (req.productId.getD "")
        (createAccount st (effUser ib).idField (.vStr "standard") now).1.id =
      .respond sc stc cb)
    (hsc : resOk sc = false) (hnz : sc ≠ 0) :
    (onboard st now icu ca req).reply =
      ⟨sc, .error (fallbackMsg cb.error stc)⟩ ∧
    getAccountHandler (onboard st now icu ca req).ledger
        (createAccount st (effUser ib).idField (.vStr "standard") now).1.id =
      ⟨200, .ok ((createAccount st (effUser ib).idField (.vStr "standard") now).1,
        if (req.initialCredit.getD (.vNum 0)).isNum = true
        then (req.initialCredit.getD (.vNum 0)).numVal else 0)⟩ := by
  have hcond : (!strTruthy req.name || !strTruthy req.email ||
      !strTruthy req.productId) = false := by simp [hn, hm, hp]
  have hcat' : ca (req.productId.getD "") (accId st.accountCounter) =
      .respond sc stc cb := by
    have hr : (createAccount st (effUser ib).idField (.vStr "standard") now).1.id =
        accId st.accountCounter := rfl
    rw [← hr]
    exact hcat
  have hcatE : fetchJson CatalogBody.error
      (ca (req.productId.getD "") (accId st.accountCounter)) =
      .error ⟨fallbackMsg cb.error stc, some sc⟩ := by
    rw [hcat']
    simp [fetchJson, hsc]
  constructor
  · simp only [onboard, hcond, Bool.false_eq_true, if_false, hid, createAccount,
      hcatE]
    by_cases hg : ((req.initialCredit.getD (.vNum 0)).isNum &&
        !(req.initialCredit.getD (.vNum 0)).isJsNaN) = true <;>
      simp [hg, errStatus, hnz]
  · simp only [onboard, hcond, Bool.false_eq_true, if_false, hid, createAccount,
      hcatE]
    by_cases hg : ((req.initialCredit.getD (.vNum 0)).isNum &&
        !(req.initialCredit.getD (.vNum 0)).isJsNaN) = true
    · have hnum : (req.initialCredit.getD (.vNum 0)).isNum = true :=
        (Bool.and_eq_true _ _ |>.mp hg).1
      have hnan : (req.initialCredit.getD (.vNum 0)).isJsNaN = false := by
        have h2 := (Bool.and_eq_true _ _ |>.mp hg).2
        simpa using h2
      simp [hnum, hnan, getAccountHandler, applyCredit, alGet_alSet,
        createAccount]
    · have hg' : ((req.initialCredit.getD (.vNum 0)).isNum &&
          !(req.initialCredit.getD (.vNum 0)).isJsNaN) = false := by
        cases hb : ((req.initialCredit.getD (.vNum 0)).isNum &&
            !(req.initialCredit.getD (.vNum 0)).isJsNaN) with
        | false => rfl
        | true => exact absurd hb hg
      have hval := numVal_of_guard_false _ hg'
      simp [hg', hval, getAccountHandler, applyCredit, alGet_alSet, createAccount]

/-- Witness for C1: onboarding Ada with product `unknown-x` and credit 100
against the mocks yields the catalog's 404 with `product not found`, while
`GET /accounts/a1` still returns 200 with balance 100. -/
theorem onboard_assign_failure_partial_commit_witness :
    (onboard Ledger.init "t" (mockCreateUser 1) (mockAssignProduct 1)
        ⟨some "Ada", some "ada@example.com", some "unknown-x",
          some (.vNum 100)⟩).reply =
      ⟨404, .error "product not found"⟩ ∧
    getAccountHandler
        (onboard Ledger.init "t" (mockCreateUser 1) (mockAssignProduct 1)
          ⟨some "Ada", some "ada@example.com", some "unknown-x",
            some (.vNum 100)⟩).ledger "a1" =
      ⟨200, .ok (⟨"a1", some "u1", .vStr "standard", "t"⟩, 100)⟩ := by
  have h := onboard_assign_failure_partial_commit Ledger.init "t"
    (mockCreateUser 1) (mockAssignProduct 1)
    ⟨some "Ada", some "ada@example.com", some "unknown-x", some (.vNum 100)⟩
    ⟨some ⟨"u1", "Ada", "ada@example.com"⟩, none, none⟩ 404 "Not Found"
    ⟨none, some "product not found"⟩
    (by decide) (by decide) (by decide) (by decide) (by decide) (by decide)
    (by decide)
  refine ⟨?_, ?_⟩
  · rw [h.1]
    rfl
  · have h2 := h.2
    rw [show (createAccount Ledger.init
        (effUser ⟨some ⟨"u1", "Ada", "ada@example.com"⟩, none, none⟩).idField
        (.vStr "standard") "t").1.id = "a1" from rfl] at h2
    rw [h2]
    rfl

/-- Claim C4: onboarding with all fields present, a numeric `initialCredit`,
and both downstream calls succeeding (the mock collaborators accepting both)
replies 201 with the composed `{user, account, assignment, balance}` where
the balance read back from the Ledger equals `initialCredit` and the
assignment carries the requested `productId`. -/
theorem onboard_success_end_to_end (st : Ledger) (now : String) (uc ac : Nat)
    (req : OnboardRequest) (c : Int)
    (hn : strTruthy req.name = true) (hm : strTruthy req.email = true)
    (hp : strTruthy req.productId = true)
    (hc : req.initialCredit = some (.vNum c))
    (hpk : strHasStart (req.productId.getD "") "unknown" = false) :
    onboard st now (mockCreateUser uc) (mockAssignProduct ac) req =
      { reply := ⟨201, .ok
          { user := .fromField ⟨"u" ++ natRepr uc, req.name.getD "", req.email.getD ""⟩
            account := (createAccount st (some ("u" ++ natRepr uc))
              (.vStr "standard") now).1
            assignment := .fromField ⟨"as" ++ natRepr ac, req.productId.getD "",
              (createAccount st (some ("u" ++ natRepr uc))
                (.vStr "standard") now).1.id⟩
            balance := c }⟩
        ledger := (applyCredit
          (createAccount st (some ("u" ++ natRepr uc)) (.vStr "standard") now).2
          (createAccount st (some ("u" ++ natRepr uc))
            (.vStr "standard") now).1.id c).2
        identityCalled := true
        catalogCalled := true } := by
  have hcond : (!strTruthy req.name || !strTruthy req.email ||
      !strTruthy req.productId) = false := by simp [hn, hm, hp]
  have hname := strTruthy_getD req.name hn
  have hemail := strTruthy_getD req.email hm
  have hmock : mockCreateUser uc (req.name.getD "") (req.email.getD "") =
      .respond 201 "Created"
        ⟨some ⟨"u" ++ natRepr uc, req.name.getD "", req.email.getD ""⟩,
          none, none⟩ := by
    simp [mockCreateUser, hname, hemail]
  have hassign : mockAssignProduct ac (req.productId.getD "")
      (accId st.accountCounter) =
      .respond 200 "OK"
        ⟨some ⟨"as" ++ natRepr ac, req.productId.getD "",
          accId st.accountCounter⟩, none⟩ := by
    simp [mockAssignProduct, hpk, accId_ne_empty]
  simp only [onboard, hcond, Bool.false_eq_true, if_false, hmock, fetchJson,
    resOk, hc, effUser, EffUser.idField, createAccount, JsValue.isNum,
    JsValue.isJsNaN, applyCredit, alGet_alSet, hassign, effAssignment]
  simp [alGet_alSet, createAccount, applyCredit, JsValue.numVal,
    JsValue.isJsNaN]

/-- Witness for C4: the spec's end-to-end scenario — Ada onboarding with
`productId "p1"` and `initialCredit 100` against accepting collaborators
yields 201, balance 100 and an assignment for `p1`. -/
theorem onboard_success_end_to_end_witness :
    onboard Ledger.init "t" (mockCreateUser 1) (mockAssignProduct 1)
        ⟨some "Ada", some "ada@example.com", some "p1", some (.vNum 100)⟩ =
      { reply := ⟨201, .ok
          { user := .fromField ⟨"u1", "Ada", "ada@example.com"⟩
            account := ⟨"a1", some "u1", .vStr "standard", "t"⟩
            assignment := .fromField ⟨"as1", "p1", "a1"⟩
            balance := 100 }⟩
        ledger :=
          { accountsById := [("a1", ⟨"a1", some "u1", .vStr "standard", "t"⟩)]
            accountsByUserId :=
              [(some "u1", [⟨"a1", some "u1", .vStr "standard", "t"⟩])]
            balancesByAccountId := [("a1", 100)]
            accountCounter := 2 }
        identityCalled := true
        catalogCalled := true } := by
  have h := onboard_success_end_to_end Ledger.init "t" 1 1
    ⟨some "Ada", some "ada@example.com", some "p1", some (.vNum 100)⟩ 100
    (by decide) (by decide) (by decide) (by decide) (by decide)
  rw [h]
  rfl

/-- Counterexample to claim C7 as stated: `{"initialCredit": 1e999}` parses
to `Infinity` — a present value that is not a finite number — yet the
source guard `typeof initialCredit === "number" &&
!Number.isNaN(initialCredit)` passes, so the credit step is NOT silently
skipped: `applyCredit` runs and the fresh account's balance becomes
`Infinity` rather than staying 0. -/
theorem onboard_infinite_credit_not_skipped :
    (onboardCreditStep (some (.vInf false))).1 = true ∧
    (onboardCreditStep (some (.vInf false))).2 = JsNumber.posInf ∧
    JsNumber.posInf ≠ JsNumber.finite 0 := by
  decide

/-- Claim C7 (amended): when `initialCredit` is present but is not a number,
or is the number `NaN` — exactly the values failing the source guard
`typeof initialCredit === "number" && !Number.isNaN(initialCredit)` — the
credit step is silently skipped rather than rejected: with both downstream
calls succeeding the operation still replies 201, and the new account's
balance stays 0 in the Ledger. (A present non-finite number such as the
`Infinity` produced by an over-range JSON literal instead passes the guard
and is credited; see the counterexample.) -/
theorem onboard_non_numeric_credit_ignored (st : Ledger) (now : String)
    (icu : String → String → FetchBehavior IdentityBody)
    (ca : String → String → FetchBehavior CatalogBody)
    (req : OnboardRequest) (v : JsValue) (ib : IdentityBody) (cb : CatalogBody)
    (hn : strTruthy req.name = true) (hm : strTruthy req.email = true)
    (hp : strTruthy req.productId = true)
    (hv : req.initialCredit = some v)
    (hnum : v.isNum = false ∨ v.isJsNaN = true)
    (hid : fetchJson IdentityBody.error
      (icu (req.name.getD "") (req.email.getD "")) = .ok ib)
    (hcat : fetchJson CatalogBody.error (ca (req.productId.getD "")
        (createAccount st (effUser ib).idField (.vStr "standard") now).1.id) =
      .ok cb) :
    onboard st now icu ca req =
      { reply := ⟨201, .ok
          { user := effUser ib
            account := (createAccount st (effUser ib).idField
              (.vStr "standard") now).1
            assignment := effAssignment cb
            balance := 0 }⟩
        ledger := (createAccount st (effUser ib).idField (.vStr "standard") now).2
        identityCalled := true
        catalogCalled := true } ∧
    alGet (onboard st now icu ca req).ledger.balancesByAccountId
        (createAccount st (effUser ib).idField (.vStr "standard") now).1.id =
      some 0 := by
  have hcond : (!strTruthy req.name || !strTruthy req.email ||
      !strTruthy req.productId) = false := by simp [hn, hm, hp]
  have hguard : (v.isNum && !v.isJsNaN) = false := by
    rcases hnum with h | h <;> simp [h]
  have hcat' : fetchJson CatalogBody.error
      (ca (req.productId.getD "") (accId st.accountCounter)) = .ok cb := by
    have hr : (createAccount st (effUser ib).idField (.vStr "standard") now).1.id =
        accId st.accountCounter := rfl
    rw [← hr]
    exact hcat
  have hmain : onboard st now icu ca req =
      { reply := ⟨201, .ok
          { user := effUser ib
            account := (createAccount st (effUser ib).idField
              (.vStr "standard") now).1
            assignment := effAssignment cb
            balance := 0 }⟩
        ledger := (createAccount st (effUser ib).idField (.vStr "standard") now).2
        identityCalled := true
        catalogCalled := true } := by
    simp only [onboard, hcond, Bool.false_eq_true, if_false, hid, hv, hguard,
      createAccount, hcat', alGet_alSet]
    simp [hguard, createAccount, alGet_alSet]
  refine ⟨hmain, ?_⟩
  rw [hmain]
  simp [createAccount, alGet_alSet]

/-- Witness for C7: `initialCredit: "lots"` (a string) is ignored — the
onboarding still succeeds with 201 and the account's stored balance is 0. -/
theorem onboard_non_numeric_credit_ignored_witness :
    onboard Ledger.init "t" (mockCreateUser 1) (mockAssignProduct 1)
        ⟨some "Ada", some "ada@example.com", some "p1", some (.vStr "lots")⟩ =
      { reply := ⟨201, .ok
          { user := effUser ⟨some ⟨"u1", "Ada", "ada@example.com"⟩, none, none⟩
            account := (createAccount Ledger.init
              (effUser ⟨some ⟨"u1", "Ada", "ada@example.com"⟩, none, none⟩).idField
              (.vStr "standard") "t").1
            assignment := effAssignment
              ⟨some ⟨"as1", "p1", "a1"⟩, none⟩
            balance := 0 }⟩
        ledger := (createAccount Ledger.init
          (effUser ⟨some ⟨"u1", "Ada", "ada@example.com"⟩, none, none⟩).idField
          (.vStr "standard") "t").2
        identityCalled := true
        catalogCalled := true } ∧
    alGet (onboard Ledger.init "t" (mockCreateUser 1) (mockAssignProduct 1)
        ⟨some "Ada", some "ada@example.com", some "p1",
          some (.vStr "lots")⟩).ledger.balancesByAccountId
      (createAccount Ledger.init
        (effUser ⟨some ⟨"u1", "Ada", "ada@example.com"⟩, none, none⟩).idField
        (.vStr "standard") "t").1.id = some 0 :=
  onboard_non_numeric_credit_ignored Ledger.init "t" (mockCreateUser 1)
    (mockAssignProduct 1)
    ⟨some "Ada", some "ada@example.com", some "p1", some (.vStr "lots")⟩
    (.vStr "lots") ⟨some ⟨"u1", "Ada", "ada@example.com"⟩, none, none⟩
    ⟨some ⟨"as1", "p1", "a1"⟩, none⟩
    (by decide) (by decide) (by decide) (by decide) (by decide) (by decide)
    (by decide)
